import Mathlib

/-!
Shallow embedding of the analysis engine of the LTE Drive Test Analyzer.

The root-cause summary block is embedded from `src/app.py` (lines 515-566):
the five `if "..." in analysis_types:` blocks that append findings to the
`root_causes` list in the Summary Report tab.  Percentages and rates are
modelled as rationals.

The analyzer module (`modules/analyzer.py`) is imported by `src/app.py` but
its source is not part of the repository snapshot; the analysis pipelines
used below are therefore modelled from the specification (each such
definition carries a `Modelled from the spec:` doc comment).
-/

namespace DriveTest

/-- Severity of an emitted finding; the source uses the strings
`"High"` and `"Medium"` (`src/app.py:523` etc.). -/
inductive Severity
  | High
  | Medium
deriving DecidableEq, Repr

/-- The five issue kinds the root-cause summary can emit
(`"Coverage Problems"`, `"Interference Issues"`, `"Handover Failures"`,
`"Throughput Bottlenecks"`, `"Call Drops"` in `src/app.py`). -/
inductive Issue
  | coverage
  | interference
  | handover
  | throughput
  | callDrops
deriving DecidableEq, Repr

/-- The `"Issue"` string used for each issue kind in `src/app.py`. -/
def Issue.name : Issue → String
  | .coverage => "Coverage Problems"
  | .interference => "Interference Issues"
  | .handover => "Handover Failures"
  | .throughput => "Throughput Bottlenecks"
  | .callDrops => "Call Drops"

/-- One record appended to `root_causes` in `src/app.py`.  The
`"Description"` field of the source is interpolated display text and is not
modelled; the `"Recommendation"` field is the static template string. -/
structure Finding where
  issue : Issue
  severity : Severity
  recommendation : String
deriving DecidableEq, Repr

/-- Which analysis types are in the `analysis_types` multiselect
(`src/app.py:95-110`), restricted to the five kinds the root-cause summary
reads. -/
structure Selection where
  coverage : Bool
  interference : Bool
  handover : Bool
  throughput : Bool
  callDrops : Bool
deriving DecidableEq, Repr

/-- The aggregate pipeline outputs that the root-cause summary block reads
(`coverage_results['coverage_issues_pct']`,
`interference_results['interference_issues_pct']`,
`handover_results['handover_success_rate']`,
`throughput_results['dl_bottleneck_areas']` / `['ul_bottleneck_areas']`,
`call_drop_results['call_drop_rate']` in `src/app.py:518-566`). -/
structure PipelineResults where
  coverage_issues_pct : ℚ
  interference_issues_pct : ℚ
  handover_success_rate : ℚ
  dl_bottleneck_areas : ℕ
  ul_bottleneck_areas : ℕ
  call_drop_rate : ℚ
deriving DecidableEq, Repr

/-- Static recommendation template for coverage (`src/app.py:525`). -/
def coverageRecommendation : String :=
  "Review cell site placement and antenna configurations. Consider adding new sites in critical areas."

/-- Static recommendation template for interference (`src/app.py:535`). -/
def interferenceRecommendation : String :=
  "Review PCI planning, adjust antenna tilts, and optimize frequency planning to reduce interference."

/-- Static recommendation template for handover failures (`src/app.py:545`). -/
def handoverRecommendation : String :=
  "Review neighbor cell lists, optimize handover parameters, and check for missing neighbors."

/-- Static recommendation template for throughput (`src/app.py:555`). -/
def throughputRecommendation : String :=
  "Check resource allocation, scheduling algorithms, and consider capacity expansions in affected cells."

/-- Static recommendation template for call drops (`src/app.py:565`). -/
def callDropRecommendation : String :=
  "Review RRC configuration, mobility parameters, and cell coverage overlaps to reduce drops."

/-- The finding appended for coverage problems (`src/app.py:521-526`). -/
def coverageFinding (r : PipelineResults) : Finding :=
  { issue := .coverage
    severity := if r.coverage_issues_pct > 25 then .High else .Medium
    recommendation := coverageRecommendation }

/-- The finding appended for interference (`src/app.py:531-536`). -/
def interferenceFinding (r : PipelineResults) : Finding :=
  { issue := .interference
    severity := if r.interference_issues_pct > 25 then .High else .Medium
    recommendation := interferenceRecommendation }

/-- The finding appended for handover failures (`src/app.py:541-546`). -/
def handoverFinding (r : PipelineResults) : Finding :=
  { issue := .handover
    severity := if r.handover_success_rate < 90 then .High else .Medium
    recommendation := handoverRecommendation }

/-- The finding appended for throughput bottlenecks (`src/app.py:551-556`);
its severity is the constant Medium. -/
def throughputFinding : Finding :=
  { issue := .throughput
    severity := .Medium
    recommendation := throughputRecommendation }

/-- The finding appended for call drops (`src/app.py:561-566`). -/
def callDropFinding (r : PipelineResults) : Finding :=
  { issue := .callDrops
    severity := if r.call_drop_rate > 5 then .High else .Medium
    recommendation := callDropRecommendation }

/-- The `if "Coverage Problems" in analysis_types` block, `src/app.py:518-526`:
append a finding when `coverage_issues_pct > 10`. -/
def coverageFindings (sel : Selection) (r : PipelineResults) : List Finding :=
  if sel.coverage = true ∧ r.coverage_issues_pct > 10 then [coverageFinding r] else []

/-- The `if "Interference" in analysis_types` block, `src/app.py:528-536`. -/
def interferenceFindings (sel : Selection) (r : PipelineResults) : List Finding :=
  if sel.interference = true ∧ r.interference_issues_pct > 10 then [interferenceFinding r]
  else []

/-- The `if "Handover Failures" in analysis_types` block, `src/app.py:538-546`:
report when the success rate drops below 95. -/
def handoverFindings (sel : Selection) (r : PipelineResults) : List Finding :=
  if sel.handover = true ∧ r.handover_success_rate < 95 then [handoverFinding r] else []

/-- The `if "Throughput Bottlenecks" in analysis_types` block,
`src/app.py:548-556`: report when either bottleneck-area count exceeds 5. -/
def throughputFindings (sel : Selection) (r : PipelineResults) : List Finding :=
  if sel.throughput = true ∧ (r.dl_bottleneck_areas > 5 ∨ r.ul_bottleneck_areas > 5) then
    [throughputFinding]
  else []

/-- The `if "Call Drops" in analysis_types` block, `src/app.py:558-566`:
report when `call_drop_rate > 2`. -/
def callDropFindings (sel : Selection) (r : PipelineResults) : List Finding :=
  if sel.callDrops = true ∧ r.call_drop_rate > 2 then [callDropFinding r] else []

/-- The `root_causes` list built in the Summary Report tab,
`src/app.py:515-566`: the five blocks append in this fixed textual order. -/
def root_causes (sel : Selection) (r : PipelineResults) : List Finding :=
  coverageFindings sel r ++ interferenceFindings sel r ++ handoverFindings sel r
    ++ throughputFindings sel r ++ callDropFindings sel r

/-- Position of each issue kind among the five appending blocks of
`src/app.py:515-566`. -/
def issueRank : Issue → ℕ
  | .coverage => 0
  | .interference => 1
  | .handover => 2
  | .throughput => 3
  | .callDrops => 4

/-- A finding list is ranked by severity when every High-severity finding
appears before every Medium-severity finding. -/
def rankedBySeverity (l : List Finding) : Prop :=
  ∀ i j : Fin l.length, (l.get i).severity = Severity.High →
    (l.get j).severity = Severity.Medium → (i : ℕ) < (j : ℕ)

lemma mem_coverageFindings {sel r f} :
    f ∈ coverageFindings sel r ↔
      sel.coverage = true ∧ r.coverage_issues_pct > 10 ∧ f = coverageFinding r := by
  unfold coverageFindings
  split_ifs with h
  · simp [h.1, h.2]
  · simp only [List.not_mem_nil, false_iff]
    rintro ⟨h1, h2, -⟩
    exact h ⟨h1, h2⟩

lemma mem_interferenceFindings {sel r f} :
    f ∈ interferenceFindings sel r ↔
      sel.interference = true ∧ r.interference_issues_pct > 10 ∧ f = interferenceFinding r := by
  unfold interferenceFindings
  split_ifs with h
  · simp [h.1, h.2]
  · simp only [List.not_mem_nil, false_iff]
    rintro ⟨h1, h2, -⟩
    exact h ⟨h1, h2⟩

lemma mem_handoverFindings {sel r f} :
    f ∈ handoverFindings sel r ↔
      sel.handover = true ∧ r.handover_success_rate < 95 ∧ f = handoverFinding r := by
  unfold handoverFindings
  split_ifs with h
  · simp [h.1, h.2]
  · simp only [List.not_mem_nil, false_iff]
    rintro ⟨h1, h2, -⟩
    exact h ⟨h1, h2⟩

lemma mem_throughputFindings {sel r f} :
    f ∈ throughputFindings sel r ↔
      sel.throughput = true ∧ (r.dl_bottleneck_areas > 5 ∨ r.ul_bottleneck_areas > 5) ∧
        f = throughputFinding := by
  unfold throughputFindings
  split_ifs with h
  · simp [h.1, h.2]
  · simp only [List.not_mem_nil, false_iff]
    rintro ⟨h1, h2, -⟩
    exact h ⟨h1, h2⟩

lemma mem_callDropFindings {sel r f} :
    f ∈ callDropFindings sel r ↔
      sel.callDrops = true ∧ r.call_drop_rate > 2 ∧ f = callDropFinding r := by
  unfold callDropFindings
  split_ifs with h
  · simp [h.1, h.2]
  · simp only [List.not_mem_nil, false_iff]
    rintro ⟨h1, h2, -⟩
    exact h ⟨h1, h2⟩

lemma mem_root_causes {sel r f} :
    f ∈ root_causes sel r ↔
      f ∈ coverageFindings sel r ∨ f ∈ interferenceFindings sel r ∨
        f ∈ handoverFindings sel r ∨ f ∈ throughputFindings sel r ∨
        f ∈ callDropFindings sel r := by
  simp [root_causes, List.mem_append, or_assoc]

lemma eq_of_mem_issue_coverage {sel r f} (hf : f ∈ root_causes sel r)
    (h : f.issue = Issue.coverage) :
    r.coverage_issues_pct > 10 ∧ f = coverageFinding r := by
  rcases mem_root_causes.mp hf with hm | hm | hm | hm | hm
  · obtain ⟨-, h10, rfl⟩ := mem_coverageFindings.mp hm
    exact ⟨h10, rfl⟩
  · obtain ⟨-, -, rfl⟩ := mem_interferenceFindings.mp hm
    simp [interferenceFinding] at h
  · obtain ⟨-, -, rfl⟩ := mem_handoverFindings.mp hm
    simp [handoverFinding] at h
  · obtain ⟨-, -, rfl⟩ := mem_throughputFindings.mp hm
    simp [throughputFinding] at h
  · obtain ⟨-, -, rfl⟩ := mem_callDropFindings.mp hm
    simp [callDropFinding] at h

lemma eq_of_mem_issue_interference {sel r f} (hf : f ∈ root_causes sel r)
    (h : f.issue = Issue.interference) :
    r.interference_issues_pct > 10 ∧ f = interferenceFinding r := by
  rcases mem_root_causes.mp hf with hm | hm | hm | hm | hm
  · obtain ⟨-, -, rfl⟩ := mem_coverageFindings.mp hm
    simp [coverageFinding] at h
  · obtain ⟨-, h10, rfl⟩ := mem_interferenceFindings.mp hm
    exact ⟨h10, rfl⟩
  · obtain ⟨-, -, rfl⟩ := mem_handoverFindings.mp hm
    simp [handoverFinding] at h
  · obtain ⟨-, -, rfl⟩ := mem_throughputFindings.mp hm
    simp [throughputFinding] at h
  · obtain ⟨-, -, rfl⟩ := mem_callDropFindings.mp hm
    simp [callDropFinding] at h

lemma eq_of_mem_issue_throughput {sel r f} (hf : f ∈ root_causes sel r)
    (h : f.issue = Issue.throughput) :
    (r.dl_bottleneck_areas > 5 ∨ r.ul_bottleneck_areas > 5) ∧ f = throughputFinding := by
  rcases mem_root_causes.mp hf with hm | hm | hm | hm | hm
  · obtain ⟨-, -, rfl⟩ := mem_coverageFindings.mp hm
    simp [coverageFinding] at h
  · obtain ⟨-, -, rfl⟩ := mem_interferenceFindings.mp hm
    simp [interferenceFinding] at h
  · obtain ⟨-, -, rfl⟩ := mem_handoverFindings.mp hm
    simp [handoverFinding] at h
  · obtain ⟨-, h5, rfl⟩ := mem_throughputFindings.mp hm
    exact ⟨h5, rfl⟩
  · obtain ⟨-, -, rfl⟩ := mem_callDropFindings.mp hm
    simp [callDropFinding] at h

lemma eq_of_mem_issue_callDrops {sel r f} (hf : f ∈ root_causes sel r)
    (h : f.issue = Issue.callDrops) :
    r.call_drop_rate > 2 ∧ f = callDropFinding r := by
  rcases mem_root_causes.mp hf with hm | hm | hm | hm | hm
  · obtain ⟨-, -, rfl⟩ := mem_coverageFindings.mp hm
    simp [coverageFinding] at h
  · obtain ⟨-, -, rfl⟩ := mem_interferenceFindings.mp hm
    simp [interferenceFinding] at h
  · obtain ⟨-, -, rfl⟩ := mem_handoverFindings.mp hm
    simp [handoverFinding] at h
  · obtain ⟨-, -, rfl⟩ := mem_throughputFindings.mp hm
    simp [throughputFinding] at h
  · obtain ⟨-, h2, rfl⟩ := mem_callDropFindings.mp hm
    exact ⟨h2, rfl⟩

/-- Filtering a (possibly empty) one-finding block by issue keeps the finding
exactly when the block is present and the finding carries that issue. -/
lemma filter_segment (c : Prop) [Decidable c] (F : Finding) (p : Issue) :
    (if c then [F] else []).filter (fun f => decide (f.issue = p)) =
      if c ∧ F.issue = p then [F] else [] := by
  by_cases hc : c
  · by_cases hip : F.issue = p
    · simp [hc, hip]
    · simp [hc, hip]
  · simp [hc]

/-- Which selection flag gates each issue kind (`src/app.py:518-558`). -/
def selectedFor : Issue → Selection → Bool
  | .coverage, sel => sel.coverage
  | .interference, sel => sel.interference
  | .handover, sel => sel.handover
  | .throughput, sel => sel.throughput
  | .callDrops, sel => sel.callDrops

/-- The aggregate outputs that issue kind p's block reads agree between two
runs (`src/app.py:518-566`: each block reads only its own pipeline's
results). -/
def resultsAgreeOn : Issue → PipelineResults → PipelineResults → Prop
  | .coverage, r1, r2 => r1.coverage_issues_pct = r2.coverage_issues_pct
  | .interference, r1, r2 => r1.interference_issues_pct = r2.interference_issues_pct
  | .handover, r1, r2 => r1.handover_success_rate = r2.handover_success_rate
  | .throughput, r1, r2 =>
      r1.dl_bottleneck_areas = r2.dl_bottleneck_areas ∧
        r1.ul_bottleneck_areas = r2.ul_bottleneck_areas
  | .callDrops, r1, r2 => r1.call_drop_rate = r2.call_drop_rate

/-- Selection with every analysis type checked. -/
def exSelection : Selection := ⟨true, true, true, true, true⟩

/-- A concrete set of pipeline outputs used to instantiate theorems. -/
def exResults : PipelineResults := ⟨30, 15, 96, 0, 0, 6⟩

/-- Selection with Coverage Problems and Call Drops checked. -/
def cexSelection : Selection := ⟨true, false, false, false, true⟩

/-- Pipeline outputs with a Medium coverage percentage and a High call-drop
rate. -/
def cexResults : PipelineResults := ⟨15, 0, 100, 0, 0, 6⟩

/-- C1: when the Coverage Problems and Interference analyses are selected,
the root-cause summary emits a finding for each exactly when its headline
percentage exceeds 10, and such a finding has Severity High exactly when
that percentage exceeds 25 (otherwise Medium, the only other severity). -/
theorem coverage_interference_escalation (sel : Selection) (r : PipelineResults)
    (hc : sel.coverage = true) (hi : sel.interference = true) :
    ((∃ f ∈ root_causes sel r, f.issue = Issue.coverage) ↔ r.coverage_issues_pct > 10) ∧
    (∀ f ∈ root_causes sel r, f.issue = Issue.coverage →
      (f.severity = Severity.High ↔ r.coverage_issues_pct > 25)) ∧
    ((∃ f ∈ root_causes sel r, f.issue = Issue.interference) ↔
      r.interference_issues_pct > 10) ∧
    (∀ f ∈ root_causes sel r, f.issue = Issue.interference →
      (f.severity = Severity.High ↔ r.interference_issues_pct > 25)) := by
  refine ⟨⟨?_, ?_⟩, ?_, ⟨?_, ?_⟩, ?_⟩
  · rintro ⟨f, hf, hiss⟩
    exact (eq_of_mem_issue_coverage hf hiss).1
  · intro hp
    exact ⟨coverageFinding r,
      mem_root_causes.mpr (Or.inl (mem_coverageFindings.mpr ⟨hc, hp, rfl⟩)), rfl⟩
  · intro f hf hiss
    obtain ⟨-, rfl⟩ := eq_of_mem_issue_coverage hf hiss
    show (if r.coverage_issues_pct > 25 then Severity.High else Severity.Medium) =
      Severity.High ↔ r.coverage_issues_pct > 25
    split_ifs with h25
    · exact iff_of_true rfl h25
    · exact iff_of_false (by decide) h25
  · rintro ⟨f, hf, hiss⟩
    exact (eq_of_mem_issue_interference hf hiss).1
  · intro hp
    exact ⟨interferenceFinding r,
      mem_root_causes.mpr (Or.inr (Or.inl (mem_interferenceFindings.mpr ⟨hi, hp, rfl⟩))),
      rfl⟩
  · intro f hf hiss
    obtain ⟨-, rfl⟩ := eq_of_mem_issue_interference hf hiss
    show (if r.interference_issues_pct > 25 then Severity.High else Severity.Medium) =
      Severity.High ↔ r.interference_issues_pct > 25
    split_ifs with h25
    · exact iff_of_true rfl h25
    · exact iff_of_false (by decide) h25

/-- Witness for C1 at a concrete selection and concrete pipeline outputs. -/
theorem coverage_interference_escalation_witness :
    exSelection.coverage = true ∧ exSelection.interference = true ∧
    (((∃ f ∈ root_causes exSelection exResults, f.issue = Issue.coverage) ↔
        exResults.coverage_issues_pct > 10) ∧
      (∀ f ∈ root_causes exSelection exResults, f.issue = Issue.coverage →
        (f.severity = Severity.High ↔ exResults.coverage_issues_pct > 25)) ∧
      ((∃ f ∈ root_causes exSelection exResults, f.issue = Issue.interference) ↔
        exResults.interference_issues_pct > 10) ∧
      (∀ f ∈ root_causes exSelection exResults, f.issue = Issue.interference →
        (f.severity = Severity.High ↔ exResults.interference_issues_pct > 25))) :=
  ⟨rfl, rfl, coverage_interference_escalation exSelection exResults rfl rfl⟩

/-- C2: when Call Drops is selected and the call-drop rate is 6, the
root-cause summary emits exactly one Call Drops finding, and it has
Severity High. -/
theorem call_drops_six_percent_finding (sel : Selection) (r : PipelineResults)
    (hsel : sel.callDrops = true) (hrate : r.call_drop_rate = 6) :
    (root_causes sel r).filter (fun f => decide (f.issue = Issue.callDrops)) =
      [{ issue := .callDrops, severity := .High,
         recommendation := callDropRecommendation }] := by
  simp [root_causes, coverageFindings, interferenceFindings, handoverFindings,
    throughputFindings, callDropFindings, List.filter_append, filter_segment,
    coverageFinding, interferenceFinding, handoverFinding, throughputFinding,
    callDropFinding, hsel, hrate]
  norm_num

/-- Witness for C2 at a concrete selection and concrete pipeline outputs. -/
theorem call_drops_six_percent_finding_witness :
    exSelection.callDrops = true ∧ exResults.call_drop_rate = 6 ∧
    (root_causes exSelection exResults).filter
        (fun f => decide (f.issue = Issue.callDrops)) =
      [{ issue := .callDrops, severity := .High,
         recommendation := callDropRecommendation }] :=
  ⟨rfl, rfl, call_drops_six_percent_finding exSelection exResults rfl rfl⟩

/-- C3 counterexample: with Coverage Problems (percentage 15, Medium) and
Call Drops (rate 6, High) selected, the emitted list is
[Medium, High]: the High finding does not precede the Medium one. -/
theorem root_causes_not_ranked_by_severity :
    ¬ rankedBySeverity (root_causes cexSelection cexResults) := by
  unfold rankedBySeverity
  decide

/-- C3 amended: the root-cause findings are emitted in the fixed pipeline
order of the source blocks (Coverage, Interference, Handover, Throughput,
Call Drops), with at most one finding per pipeline; they are not reordered
by severity. -/
theorem root_causes_pipeline_order (sel : Selection) (r : PipelineResults) :
    List.Chain' (fun a b => issueRank a.issue < issueRank b.issue)
      (root_causes sel r) := by
  unfold root_causes coverageFindings interferenceFindings handoverFindings
    throughputFindings callDropFindings
  split_ifs <;>
    simp [coverageFinding, interferenceFinding, handoverFinding,
      throughputFinding, callDropFinding, issueRank, List.chain'_cons]

/-- C4: the findings emitted for an issue kind depend only on that
pipeline's own aggregate output and its selection flag: two runs that agree
there produce the same findings for that issue kind, whatever the other
pipelines' outputs and selections are. -/
theorem per_pipeline_independence (p : Issue) (sel1 sel2 : Selection)
    (r1 r2 : PipelineResults) (h1 : selectedFor p sel1 = true)
    (h2 : selectedFor p sel2 = true) (hr : resultsAgreeOn p r1 r2) :
    (root_causes sel1 r1).filter (fun f => decide (f.issue = p)) =
      (root_causes sel2 r2).filter (fun f => decide (f.issue = p)) := by
  cases p <;>
    simp_all [selectedFor, resultsAgreeOn, root_causes, coverageFindings,
      interferenceFindings, handoverFindings, throughputFindings, callDropFindings,
      coverageFinding, interferenceFinding, handoverFinding, throughputFinding,
      callDropFinding, List.filter_append, filter_segment]

/-- Witness for C4: two runs agreeing on the Coverage pipeline. -/
theorem per_pipeline_independence_witness :
    selectedFor Issue.coverage exSelection = true ∧
    selectedFor Issue.coverage cexSelection = true ∧
    resultsAgreeOn Issue.coverage cexResults
      { cexResults with interference_issues_pct := 90 } ∧
    (root_causes exSelection cexResults).filter
        (fun f => decide (f.issue = Issue.coverage)) =
      (root_causes cexSelection { cexResults with interference_issues_pct := 90 }).filter
        (fun f => decide (f.issue = Issue.coverage)) :=
  ⟨rfl, rfl, rfl, per_pipeline_independence Issue.coverage exSelection cexSelection
    cexResults { cexResults with interference_issues_pct := 90 } rfl rfl rfl⟩

/-- C10: when Throughput Bottlenecks is selected, a finding is emitted
exactly when more than 5 DL or more than 5 UL bottleneck areas were found,
and every such finding has the constant Severity Medium. -/
theorem throughput_bottleneck_rule (sel : Selection) (r : PipelineResults)
    (ht : sel.throughput = true) :
    ((∃ f ∈ root_causes sel r, f.issue = Issue.throughput) ↔
      (r.dl_bottleneck_areas > 5 ∨ r.ul_bottleneck_areas > 5)) ∧
    (∀ f ∈ root_causes sel r, f.issue = Issue.throughput →
      f.severity = Severity.Medium) := by
  constructor
  · constructor
    · rintro ⟨f, hf, hiss⟩
      exact (eq_of_mem_issue_throughput hf hiss).1
    · intro hp
      exact ⟨throughputFinding,
        mem_root_causes.mpr (Or.inr (Or.inr (Or.inr (Or.inl
          (mem_throughputFindings.mpr ⟨ht, hp, rfl⟩))))), rfl⟩
  · intro f hf hiss
    obtain ⟨-, rfl⟩ := eq_of_mem_issue_throughput hf hiss
    rfl

/-- Witness for C10 at a concrete selection and concrete pipeline outputs. -/
theorem throughput_bottleneck_rule_witness :
    exSelection.throughput = true ∧
    (((∃ f ∈ root_causes exSelection exResults, f.issue = Issue.throughput) ↔
        (exResults.dl_bottleneck_areas > 5 ∨ exResults.ul_bottleneck_areas > 5)) ∧
      (∀ f ∈ root_causes exSelection exResults, f.issue = Issue.throughput →
        f.severity = Severity.Medium)) :=
  ⟨rfl, throughput_bottleneck_rule exSelection exResults rfl⟩

/-! ### The analysis pipelines

`src/app.py` imports the ten `analyze_*` pipelines from `modules/analyzer.py`,
which is not part of the repository snapshot; the definitions below are
modelled from the specification (sections 3, 4 and 7). -/

/-- Canonical vocabulary of the free-text `event_marker` log tokens that the
event reconstructors react to (spec section 3). -/
inductive Marker
  | callStart
  | callEnd
  | callDrop
  | handoverFailure
  | rrcFailure
deriving DecidableEq, Repr

/-- Modelled from the spec: one record of the Sample Table (section 3),
standing in for the `modules/analyzer.py` dataframe rows that are not under
`src/`.  The modelled table is the non-missing sample population: samples
whose required numeric fields are absent are excluded upstream
(MissingFieldError, section 7); the optional quality fields keep their
explicit absent marker. -/
structure Sample where
  timestamp : ℕ
  latitude : ℚ
  longitude : ℚ
  rsrp : ℚ
  rsrq : ℚ
  sinr : ℚ
  serving_cell_id : ℕ
  pci : ℕ
  throughput_dl : ℚ
  throughput_ul : ℚ
  mos : Option ℚ
  qci : Option ℕ
  event_marker : Option Marker
deriving DecidableEq, Repr

/-- Modelled from the spec: the coverage rule of the Metric Classifier
(section 4.1, `modules/analyzer.py` not under `src/`): a sample is a
coverage issue if RSRP is below the RSRP threshold or RSRQ is below the
RSRQ threshold. -/
def isCoverageIssue (s : Sample) (rsrpT rsrqT : ℚ) : Bool :=
  decide (s.rsrp < rsrpT) || decide (s.rsrq < rsrqT)

/-- Modelled from the spec: the interference rule of the Metric Classifier
(section 4.1): SINR below the SINR threshold while RSRP is at or above the
coverage threshold. -/
def isInterferenceIssue (s : Sample) (sinrT rsrpT : ℚ) : Bool :=
  decide (s.sinr < sinrT) && decide (rsrpT ≤ s.rsrp)

/-- Percentage of k out of n with the defined sentinel 0 when n = 0
(EmptyInputError, spec section 7). -/
def pct (k n : ℕ) : ℚ := if n = 0 then 0 else (k : ℚ) / (n : ℚ) * 100

/-- Modelled from the spec (section 4.4): proximity radius in degrees, a
documented constant of about 100 m at the survey latitude. -/
def proximity_radius : ℚ := 1 / 1000

/-- Modelled from the spec (section 4.4): minimum sample count before a
cluster is emitted, a documented constant filtering single-sample noise. -/
def min_cluster_size : ℕ := 3

/-- Two samples are proximate when both coordinates differ by at most the
proximity radius. -/
def near (a b : Sample) : Bool :=
  decide (|a.latitude - b.latitude| ≤ proximity_radius) &&
    decide (|a.longitude - b.longitude| ≤ proximity_radius)

/-- Whether the sample is proximate to the cluster's seed (first) member. -/
def nearCluster (s : Sample) : List Sample → Bool
  | [] => false
  | t :: _ => near s t

/-- Add one sample to the first cluster whose seed is proximate, or start a
new cluster (agglomeration step of spec section 4.4). -/
def addToClusters (s : Sample) : List (List Sample) → List (List Sample)
  | [] => [[s]]
  | c :: cs => if nearCluster s c then (s :: c) :: cs else c :: addToClusters s cs

/-- Group flagged samples into proximity clusters (spec section 4.4). -/
def clusterSamples (l : List Sample) : List (List Sample) :=
  l.foldl (fun cs s => addToClusters s cs) []

/-- Arithmetic mean with the 0 sentinel on an empty list. -/
def listMean (l : List ℚ) : ℚ := if l.length = 0 then 0 else l.sum / (l.length : ℚ)

/-- Statistical mode of the members' serving cell ids (spec section 4.4),
0 for an empty cluster. -/
def cellMode (l : List Sample) : ℕ :=
  let ids := l.map Sample.serving_cell_id
  ids.foldl (fun best c => if ids.count best < ids.count c then c else best) 0

/-- Modelled from the spec: a ProblemArea record (section 3). -/
structure ProblemArea where
  centroid_lat : ℚ
  centroid_lon : ℚ
  problem_type : String
  sample_count : ℕ
  avg_rsrp : ℚ
  avg_rsrq : ℚ
  avg_sinr : ℚ
  cell_id : ℕ
deriving DecidableEq, Repr

/-- Cluster metrics are the arithmetic means of the members' RF values
(spec section 4.4). -/
def toProblemArea (ptype : String) (c : List Sample) : ProblemArea :=
  { centroid_lat := listMean (c.map Sample.latitude)
    centroid_lon := listMean (c.map Sample.longitude)
    problem_type := ptype
    sample_count := c.length
    avg_rsrp := listMean (c.map Sample.rsrp)
    avg_rsrq := listMean (c.map Sample.rsrq)
    avg_sinr := listMean (c.map Sample.sinr)
    cell_id := cellMode c }

/-- Modelled from the spec: the Spatial Clusterer (section 4.4): agglomerate
flagged samples and emit clusters that reach the minimum sample count. -/
def spatial_clusters (ptype : String) (flagged : List Sample) : List ProblemArea :=
  ((clusterSamples flagged).filter (fun c => decide (min_cluster_size ≤ c.length))).map
    (toProblemArea ptype)

/-- Output of `analyze_rf_metrics` as read by `src/app.py:370-372`. -/
structure RfResult where
  coverage_issues_pct : ℚ
  interference_issues_pct : ℚ
  good_rf_pct : ℚ
deriving DecidableEq, Repr

/-- Modelled from the spec: `analyze_rf_metrics` (section 4.1,
`modules/analyzer.py` not under `src/`): the three percentages over the
sample population, each 0 on an empty table. -/
def analyze_rf_metrics (df : List Sample) (rsrpT rsrqT sinrT : ℚ) : RfResult :=
  { coverage_issues_pct :=
      pct (df.countP (fun s => isCoverageIssue s rsrpT rsrqT)) df.length
    interference_issues_pct :=
      pct (df.countP (fun s => isInterferenceIssue s sinrT rsrpT)) df.length
    good_rf_pct :=
      pct (df.countP (fun s =>
        !isCoverageIssue s rsrpT rsrqT && !isInterferenceIssue s sinrT rsrpT)) df.length }

/-- Modelled from the spec (section 4.4): margin below the RSRP threshold
beyond which a cluster is critical, a documented constant. -/
def critical_margin : ℚ := 10

/-- Output of `analyze_coverage_problems` as read by `src/app.py:380-386`. -/
structure CoverageResult where
  coverage_issues_pct : ℚ
  critical_areas : ℕ
  problem_areas : List ProblemArea
deriving DecidableEq, Repr

/-- Modelled from the spec: `analyze_coverage_problems` (sections 4.1 and
4.4, `modules/analyzer.py` not under `src/`): percentage of
coverage-flagged samples, their problem areas, and the count of critical
areas. -/
def analyze_coverage_problems (df : List Sample) (rsrpT rsrqT : ℚ) : CoverageResult :=
  let flagged := df.filter (fun s => isCoverageIssue s rsrpT rsrqT)
  let areas := spatial_clusters "Coverage" flagged
  { coverage_issues_pct := pct flagged.length df.length
    critical_areas :=
      (areas.filter (fun a => decide (a.avg_rsrp < rsrpT - critical_margin))).length
    problem_areas := areas }

/-- Output of `analyze_interference` as read by `src/app.py:394-400`. -/
structure InterferenceResult where
  interference_issues_pct : ℚ
  high_interference_areas : ℕ
  problem_areas : List ProblemArea
deriving DecidableEq, Repr

/-- Modelled from the spec: `analyze_interference` — `src/app.py:391` passes
only the SINR threshold, so the pipeline flags samples with SINR below it
and clusters them. -/
def analyze_interference (df : List Sample) (sinrT : ℚ) : InterferenceResult :=
  let flagged := df.filter (fun s => decide (s.sinr < sinrT))
  let areas := spatial_clusters "Interference" flagged
  { interference_issues_pct := pct flagged.length df.length
    high_interference_areas := areas.length
    problem_areas := areas }

/-- Output of `analyze_handover_failures` as read by `src/app.py:416-419`. -/
structure HandoverResult where
  total_handovers : ℕ
  successful_handovers : ℕ
  failed_handovers : ℕ
  handover_success_rate : ℚ
deriving DecidableEq, Repr

/-- Scan consecutive samples for serving-cell changes: a change closed by a
failure marker on the arriving sample counts as failed, otherwise
successful (observation window of one sample).  Returns
(successful, failed). -/
def handoverScan : List Sample → ℕ × ℕ
  | [] => (0, 0)
  | [_] => (0, 0)
  | a :: b :: rest =>
    let p := handoverScan (b :: rest)
    if a.serving_cell_id ≠ b.serving_cell_id then
      if b.event_marker = some Marker.handoverFailure then (p.1, p.2 + 1)
      else (p.1 + 1, p.2)
    else p

/-- Modelled from the spec: `analyze_handover_failures` (section 4.2,
`modules/analyzer.py` not under `src/`): `total = successful + failed`,
success rate `successful / total * 100` with the 0 sentinel when there are
no handovers. -/
def analyze_handover_failures (df : List Sample) : HandoverResult :=
  let s := (handoverScan df).1
  let f := (handoverScan df).2
  { total_handovers := s + f
    successful_handovers := s
    failed_handovers := f
    handover_success_rate :=
      if s + f = 0 then 0 else (s : ℚ) / ((s : ℚ) + (f : ℚ)) * 100 }

/-- Output of `analyze_call_drops` as read by `src/app.py:471-474`. -/
structure CallDropResult where
  total_calls : ℕ
  completed_calls : ℕ
  dropped_calls : ℕ
  call_drop_rate : ℚ
deriving DecidableEq, Repr

/-- Scan the stream for call sessions: open on a call-start marker
(idempotent while one is open), close completed on call-end, close dropped
on call-drop; orphan close markers are ignored.  Returns
(total, completed). -/
def callScan : List Sample → Bool → ℕ × ℕ
  | [], _ => (0, 0)
  | s :: rest, opened =>
    match s.event_marker, opened with
    | some .callStart, false => let p := callScan rest true; (p.1 + 1, p.2)
    | some .callEnd, true => let p := callScan rest false; (p.1, p.2 + 1)
    | some .callDrop, true => callScan rest false
    | _, _ => callScan rest opened

/-- Modelled from the spec: `analyze_call_drops` (section 4.2,
`modules/analyzer.py` not under `src/`): `dropped = total - completed`,
`call_drop_rate = dropped / total * 100` with the 0 sentinel when there are
no calls. -/
def analyze_call_drops (df : List Sample) : CallDropResult :=
  let p := callScan df false
  { total_calls := p.1
    completed_calls := p.2
    dropped_calls := p.1 - p.2
    call_drop_rate :=
      if p.1 = 0 then 0 else ((p.1 - p.2 : ℕ) : ℚ) / (p.1 : ℚ) * 100 }

/-- Modelled from the spec (section 4.3): absolute low-throughput floors in
kbps, documented constants (no throughput threshold is exposed in the
external interface). -/
def dl_floor : ℚ := 1000

/-- Uplink counterpart of `dl_floor`. -/
def ul_floor : ℚ := 500

/-- Output of `analyze_throughput_bottlenecks` as read by
`src/app.py:439-447`. -/
structure ThroughputResult where
  avg_dl_throughput : ℚ
  avg_ul_throughput : ℚ
  peak_dl_throughput : ℚ
  peak_ul_throughput : ℚ
  dl_bottleneck_areas : ℕ
  ul_bottleneck_areas : ℕ
deriving DecidableEq, Repr

/-- Modelled from the spec: `analyze_throughput_bottlenecks` (section 4.3,
`modules/analyzer.py` not under `src/`): mean and peak throughput and the
clustered below-floor bottleneck areas. -/
def analyze_throughput_bottlenecks (df : List Sample) : ThroughputResult :=
  { avg_dl_throughput := listMean (df.map Sample.throughput_dl)
    avg_ul_throughput := listMean (df.map Sample.throughput_ul)
    peak_dl_throughput := (df.map Sample.throughput_dl).foldr max 0
    peak_ul_throughput := (df.map Sample.throughput_ul).foldr max 0
    dl_bottleneck_areas :=
      (spatial_clusters "DL Throughput"
        (df.filter (fun s => decide (s.throughput_dl < dl_floor)))).length
    ul_bottleneck_areas :=
      (spatial_clusters "UL Throughput"
        (df.filter (fun s => decide (s.throughput_ul < ul_floor)))).length }

/-- Modelled from the spec (section 4.3): per-cell sample-density threshold
of the overload rule, a documented constant. -/
def overload_density_threshold : ℕ := 50

/-- Modelled from the spec (section 4.3): margin below the network-wide
average throughput of the overload rule, a documented constant. -/
def overload_margin : ℚ := 500

/-- Output of `analyze_cell_overloading` as read by `src/app.py:498-501`. -/
structure OverloadResult where
  overloaded_cells : List ℕ
deriving DecidableEq, Repr

/-- Modelled from the spec: `analyze_cell_overloading` (section 4.3,
`modules/analyzer.py` not under `src/`): a cell is overloaded when its
sample count exceeds the density threshold and its average throughput is
below the network-wide average by the margin. -/
def analyze_cell_overloading (df : List Sample) : OverloadResult :=
  let ids := (df.map Sample.serving_cell_id).dedup
  let netAvg := listMean (df.map Sample.throughput_dl)
  { overloaded_cells :=
      ids.filter (fun c =>
        let cs := df.filter (fun s => s.serving_cell_id == c)
        decide (overload_density_threshold < cs.length) &&
          decide (listMean (cs.map Sample.throughput_dl) < netAvg - overload_margin)) }

/-- Modelled from the spec (section 4.3): acceptable floor of the
voice-quality score, a documented constant. -/
def mos_floor : ℚ := 3

/-- Modelled from the spec (section 4.3): the degraded set of QoS class
indicators, a documented constant set. -/
def qciDegraded (q : ℕ) : Bool := decide (8 ≤ q)

/-- Output of `analyze_qos_issues` as read by `src/app.py:490-491`. -/
structure QosResult where
  volte_mos_issues_pct : ℚ
  qci_issues_pct : ℚ
deriving DecidableEq, Repr

/-- Modelled from the spec: `analyze_qos_issues` (section 4.3,
`modules/analyzer.py` not under `src/`): percentages over the samples whose
quality fields are present, with the 0 sentinel on empty denominators. -/
def analyze_qos_issues (df : List Sample) : QosResult :=
  { volte_mos_issues_pct :=
      pct (df.countP (fun s =>
            match s.mos with
            | some m => decide (m < mos_floor)
            | none => false))
        (df.countP (fun s => s.mos.isSome))
    qci_issues_pct :=
      pct (df.countP (fun s =>
            match s.qci with
            | some q => qciDegraded q
            | none => false))
        (df.countP (fun s => s.qci.isSome)) }

/-- One reported parameter inconsistency (spec section 4.3). -/
structure ParameterMismatch where
  cell_id : ℕ
  expected_pci : ℕ
  observed_pci : ℕ
  latitude : ℚ
  longitude : ℚ
deriving DecidableEq, Repr

/-- Consecutive samples on the same serving cell reporting different PCIs. -/
def pciMismatches : List Sample → List ParameterMismatch
  | a :: b :: rest =>
    (if a.serving_cell_id = b.serving_cell_id ∧ a.pci ≠ b.pci then
      [{ cell_id := b.serving_cell_id, expected_pci := a.pci, observed_pci := b.pci,
         latitude := b.latitude, longitude := b.longitude }]
    else []) ++ pciMismatches (b :: rest)
  | _ => []

/-- Modelled from the spec: `analyze_parameter_mismatches` (section 4.3,
`modules/analyzer.py` not under `src/`): each PCI inconsistency with its
location and the expected-vs-observed values. -/
def analyze_parameter_mismatches (df : List Sample) : List ParameterMismatch :=
  pciMismatches df

/-- Output of `analyze_idle_connected_mode_failures`. -/
structure IdleConnectedResult where
  failed_transitions : ℕ
  failure_pct : ℚ
deriving DecidableEq, Repr

/-- Modelled from the spec: `analyze_idle_connected_mode_failures`
(section 4.2, `modules/analyzer.py` not under `src/`): counts RRC
transition failures flagged in the stream. -/
def analyze_idle_connected_mode_failures (df : List Sample) : IdleConnectedResult :=
  let failures := df.countP (fun s => s.event_marker == some Marker.rrcFailure)
  { failed_transitions := failures
    failure_pct := pct failures df.length }

/-- Modelled from the spec (section 5): pipelines are pure reads of the
table; this wrapper returns the analysis result together with the table as
the caller sees it after the call, making the read-only frame condition
explicit. -/
def analyze_coverage_problems_run (df : List Sample) (rsrpT rsrqT : ℚ) :
    CoverageResult × List Sample :=
  (analyze_coverage_problems df rsrpT rsrqT, df)

/-- The Coverage Problems call of the RF Analysis tab (`src/app.py:377`),
applied to the uploaded table. -/
def rf_tab_coverage_run (df : List Sample) (rsrpT rsrqT : ℚ) :
    CoverageResult × List Sample :=
  analyze_coverage_problems_run df rsrpT rsrqT

/-- The Coverage Problems call of the Summary Report tab (`src/app.py:519`),
applied to the table as left by the RF Analysis tab's call. -/
def summary_coverage_run (df : List Sample) (rsrpT rsrqT : ℚ) :
    CoverageResult × List Sample :=
  analyze_coverage_problems_run (rf_tab_coverage_run df rsrpT rsrqT).2 rsrpT rsrqT

/-- The Coverage Problems call of the database-save flow (`src/app.py:615`),
applied to the table as left by the Summary Report tab's call. -/
def dbsave_coverage_run (df : List Sample) (rsrpT rsrqT : ℚ) :
    CoverageResult × List Sample :=
  analyze_coverage_problems_run (summary_coverage_run df rsrpT rsrqT).2 rsrpT rsrqT

/-! ### Counting and percentage lemmas -/

lemma countP_disjoint_le {α : Type} (p q : α → Bool) (l : List α)
    (h : ∀ a ∈ l, ¬(p a = true ∧ q a = true)) :
    l.countP p + l.countP q ≤ l.length := by
  induction l with
  | nil => simp
  | cons a t ih =>
    have ht : ∀ x ∈ t, ¬(p x = true ∧ q x = true) :=
      fun x hx => h x (List.mem_cons_of_mem a hx)
    have ha := h a (List.mem_cons_self a t)
    have iht := ih ht
    by_cases hp : p a = true <;> by_cases hq : q a = true
    · exact absurd ⟨hp, hq⟩ ha
    all_goals simp [List.countP_cons, hp, hq]
    all_goals omega

lemma countP_three_way {α : Type} (p q g : α → Bool) (l : List α)
    (hg : ∀ a, g a = (!p a && !q a))
    (h : ∀ a ∈ l, ¬(p a = true ∧ q a = true)) :
    l.countP p + l.countP q + l.countP g = l.length := by
  induction l with
  | nil => simp
  | cons a t ih =>
    have ht : ∀ x ∈ t, ¬(p x = true ∧ q x = true) :=
      fun x hx => h x (List.mem_cons_of_mem a hx)
    have ha := h a (List.mem_cons_self a t)
    have iht := ih ht
    have hga := hg a
    by_cases hp : p a = true <;> by_cases hq : q a = true
    · exact absurd ⟨hp, hq⟩ ha
    all_goals simp [List.countP_cons, hp, hq, hga]
    all_goals omega

lemma pct_nonneg (k n : ℕ) : 0 ≤ pct k n := by
  unfold pct
  split_ifs
  · exact le_refl 0
  · positivity

lemma pct_le_100 {k n : ℕ} (h : k ≤ n) : pct k n ≤ 100 := by
  unfold pct
  split_ifs with h0
  · norm_num
  · have hn : (0 : ℚ) < (n : ℚ) := by exact_mod_cast Nat.pos_of_ne_zero h0
    have hdiv : (k : ℚ) / (n : ℚ) ≤ 1 :=
      div_le_one_of_le₀ (by exact_mod_cast h) hn.le
    nlinarith [hdiv]

lemma pct_add (k1 k2 n : ℕ) : pct k1 n + pct k2 n = pct (k1 + k2) n := by
  unfold pct
  split_ifs
  · norm_num
  · push_cast
    ring

lemma pct_self {n : ℕ} (h : n ≠ 0) : pct n n = 100 := by
  unfold pct
  rw [if_neg h]
  have hn : (n : ℚ) ≠ 0 := Nat.cast_ne_zero.mpr h
  field_simp

/-- An all-fields-present sample under good RF conditions, used as a
concrete input. -/
def baseSample : Sample :=
  { timestamp := 0, latitude := 0, longitude := 0, rsrp := -90, rsrq := -10,
    sinr := 10, serving_cell_id := 1, pci := 1, throughput_dl := 5000,
    throughput_ul := 2000, mos := none, qci := none, event_marker := none }

/-- A sample flagged by both classifier rules at thresholds (−105, −15, 5):
RSRP above the coverage threshold, RSRQ below its threshold, SINR below its
threshold. -/
def overlapSample : Sample := { baseSample with rsrp := -100, rsrq := -16, sinr := 0 }

/-- A two-sample table with one serving-cell change and no failure marker. -/
def handoverTable : List Sample :=
  [baseSample, { baseSample with serving_cell_id := 2 }]

/-- C5: the handover success rate equals successful/(successful+failed)·100
exactly when there are handovers, is the defined sentinel 0 when
`total_handovers = 0`, and always lies in [0, 100] (the modelled analysis
is a total function: no division-by-zero error and no NaN). -/
theorem handover_success_rate_spec (df : List Sample) :
    ((analyze_handover_failures df).total_handovers = 0 →
      (analyze_handover_failures df).handover_success_rate = 0) ∧
    ((analyze_handover_failures df).total_handovers ≠ 0 →
      (analyze_handover_failures df).handover_success_rate =
        ((analyze_handover_failures df).successful_handovers : ℚ) /
          (((analyze_handover_failures df).successful_handovers : ℚ) +
            ((analyze_handover_failures df).failed_handovers : ℚ)) * 100) ∧
    0 ≤ (analyze_handover_failures df).handover_success_rate ∧
    (analyze_handover_failures df).handover_success_rate ≤ 100 := by
  unfold analyze_handover_failures
  dsimp only
  by_cases h : (handoverScan df).1 + (handoverScan df).2 = 0
  · simp [h]
  · have hpos : (0 : ℚ) < ((handoverScan df).1 : ℚ) + ((handoverScan df).2 : ℚ) := by
      have h2 : 0 < (handoverScan df).1 + (handoverScan df).2 := Nat.pos_of_ne_zero h
      exact_mod_cast h2
    refine ⟨fun h0 => absurd h0 h, fun _ => by rw [if_neg h], ?_, ?_⟩
    · rw [if_neg h]
      positivity
    · rw [if_neg h]
      have hle : ((handoverScan df).1 : ℚ) ≤
          ((handoverScan df).1 : ℚ) + ((handoverScan df).2 : ℚ) :=
        le_add_of_nonneg_right (by positivity)
      have hdiv : ((handoverScan df).1 : ℚ) /
          (((handoverScan df).1 : ℚ) + ((handoverScan df).2 : ℚ)) ≤ 1 :=
        div_le_one_of_le₀ hle hpos.le
      nlinarith [hdiv]

/-- Witness for C5 on a concrete table with one successful handover. -/
theorem handover_success_rate_spec_witness :
    (analyze_handover_failures handoverTable).total_handovers ≠ 0 ∧
    (analyze_handover_failures handoverTable).handover_success_rate =
      ((analyze_handover_failures handoverTable).successful_handovers : ℚ) /
        (((analyze_handover_failures handoverTable).successful_handovers : ℚ) +
          ((analyze_handover_failures handoverTable).failed_handovers : ℚ)) * 100 :=
  ⟨by decide, (handover_success_rate_spec handoverTable).2.1 (by decide)⟩

/-- C6 counterexample: at thresholds rsrp −105, rsrq −15, sinr 5, the sample
with RSRP −100, RSRQ −16, SINR 0 is classified both as a coverage issue
(RSRQ below threshold) and as an interference issue (SINR below threshold
with RSRP at or above the coverage threshold): the two categories are not
mutually exclusive. -/
theorem classifier_overlap_cex :
    isCoverageIssue overlapSample (-105) (-15) = true ∧
    isInterferenceIssue overlapSample 5 (-105) = true := by decide

/-- C6 amended: the classifier rules are exactly as stated, and a sample is
counted in both categories precisely when its RSRQ is below threshold while
RSRP is at or above the coverage threshold and SINR is below threshold; in
particular a sample flagged for coverage via low RSRP is never also an
interference issue. -/
theorem classifier_rules (s : Sample) (rsrpT rsrqT sinrT : ℚ) :
    (isCoverageIssue s rsrpT rsrqT = true ↔ (s.rsrp < rsrpT ∨ s.rsrq < rsrqT)) ∧
    (isInterferenceIssue s sinrT rsrpT = true ↔ (s.sinr < sinrT ∧ rsrpT ≤ s.rsrp)) ∧
    ((isCoverageIssue s rsrpT rsrqT = true ∧ isInterferenceIssue s sinrT rsrpT = true) ↔
      (s.rsrq < rsrqT ∧ rsrpT ≤ s.rsrp ∧ s.sinr < sinrT)) := by
  refine ⟨by simp [isCoverageIssue], by simp [isInterferenceIssue], ?_⟩
  simp only [isCoverageIssue, isInterferenceIssue, Bool.or_eq_true, Bool.and_eq_true,
    decide_eq_true_eq]
  constructor
  · rintro ⟨hcov | hcov, hsinr, hrsrp⟩
    · exact absurd hcov (not_lt.mpr hrsrp)
    · exact ⟨hcov, hrsrp, hsinr⟩
  · rintro ⟨hq, hr, hs⟩
    exact ⟨Or.inr hq, hs, hr⟩

/-- C7 amended: the RF percentages each lie in [0,100] with
`coverage_issues_pct + good_rf_pct ≤ 100` for every table and thresholds;
the three percentages sum to exactly 100 for a nonempty table on which the
two issue categories are mutually exclusive (with a double-counted sample
the sum exceeds 100, and on the empty table each percentage is the 0
sentinel). -/
theorem rf_metrics_percentages (df : List Sample) (rsrpT rsrqT sinrT : ℚ) :
    (0 ≤ (analyze_rf_metrics df rsrpT rsrqT sinrT).coverage_issues_pct ∧
      (analyze_rf_metrics df rsrpT rsrqT sinrT).coverage_issues_pct ≤ 100) ∧
    (0 ≤ (analyze_rf_metrics df rsrpT rsrqT sinrT).good_rf_pct ∧
      (analyze_rf_metrics df rsrpT rsrqT sinrT).good_rf_pct ≤ 100) ∧
    (analyze_rf_metrics df rsrpT rsrqT sinrT).coverage_issues_pct +
        (analyze_rf_metrics df rsrpT rsrqT sinrT).good_rf_pct ≤ 100 ∧
    (df ≠ [] →
      (∀ s ∈ df, ¬(isCoverageIssue s rsrpT rsrqT = true ∧
        isInterferenceIssue s sinrT rsrpT = true)) →
      (analyze_rf_metrics df rsrpT rsrqT sinrT).coverage_issues_pct +
        (analyze_rf_metrics df rsrpT rsrqT sinrT).interference_issues_pct +
        (analyze_rf_metrics df rsrpT rsrqT sinrT).good_rf_pct = 100) := by
  unfold analyze_rf_metrics
  dsimp only
  refine ⟨⟨pct_nonneg _ _, pct_le_100 (List.countP_le_length _)⟩,
    ⟨pct_nonneg _ _, pct_le_100 (List.countP_le_length _)⟩, ?_, ?_⟩
  · rw [pct_add]
    apply pct_le_100
    apply countP_disjoint_le
    rintro a - ⟨h1, h2⟩
    simp [h1] at h2
  · intro hne hex
    rw [pct_add, pct_add]
    rw [countP_three_way (fun s => isCoverageIssue s rsrpT rsrqT)
      (fun s => isInterferenceIssue s sinrT rsrpT)
      (fun s => !isCoverageIssue s rsrpT rsrqT && !isInterferenceIssue s sinrT rsrpT)
      df (fun a => rfl) hex]
    exact pct_self (fun h0 => hne (List.length_eq_zero.mp h0))

/-- Witness for C7 on a one-sample table with good RF (the categories are
exclusive there, so the three percentages sum to 100). -/
theorem rf_metrics_percentages_witness :
    [baseSample] ≠ ([] : List Sample) ∧
    (∀ s ∈ [baseSample], ¬(isCoverageIssue s (-105) (-15) = true ∧
      isInterferenceIssue s 5 (-105) = true)) ∧
    (analyze_rf_metrics [baseSample] (-105) (-15) 5).coverage_issues_pct +
      (analyze_rf_metrics [baseSample] (-105) (-15) 5).interference_issues_pct +
      (analyze_rf_metrics [baseSample] (-105) (-15) 5).good_rf_pct = 100 :=
  ⟨by decide, by decide,
    (rf_metrics_percentages [baseSample] (-105) (-15) 5).2.2.2 (by decide) (by decide)⟩

/-- C7 counterexample: on the one-sample table whose sample is flagged by
both categories, the three percentages are 100, 100 and 0: their sum is 200,
not 100 (no rounding is involved; percentages are exact rationals). -/
theorem rf_metrics_sum_cex :
    (analyze_rf_metrics [overlapSample] (-105) (-15) 5).coverage_issues_pct +
      (analyze_rf_metrics [overlapSample] (-105) (-15) 5).interference_issues_pct +
      (analyze_rf_metrics [overlapSample] (-105) (-15) 5).good_rf_pct ≠ 100 := by
  have h1 : List.countP (fun s => isCoverageIssue s (-105) (-15)) [overlapSample] = 1 := by
    decide
  have h2 : List.countP (fun s => isInterferenceIssue s 5 (-105)) [overlapSample] = 1 := by
    decide
  have h3 : List.countP
      (fun s => !isCoverageIssue s (-105) (-15) && !isInterferenceIssue s 5 (-105))
      [overlapSample] = 0 := by decide
  unfold analyze_rf_metrics
  dsimp only
  rw [h1, h2, h3]
  norm_num [pct]

/-- C8: on the empty Sample Table every modelled pipeline returns KPI values
of 0 and an empty ProblemArea sequence (all pipelines are total functions,
so no exception can be raised). -/
theorem empty_table_analyses (rsrpT rsrqT sinrT : ℚ) :
    analyze_rf_metrics [] rsrpT rsrqT sinrT = ⟨0, 0, 0⟩ ∧
    analyze_coverage_problems [] rsrpT rsrqT = ⟨0, 0, []⟩ ∧
    analyze_interference [] sinrT = ⟨0, 0, []⟩ ∧
    analyze_handover_failures [] = ⟨0, 0, 0, 0⟩ ∧
    analyze_throughput_bottlenecks [] = ⟨0, 0, 0, 0, 0, 0⟩ ∧
    analyze_call_drops [] = ⟨0, 0, 0, 0⟩ ∧
    analyze_cell_overloading [] = ⟨[]⟩ ∧
    analyze_qos_issues [] = ⟨0, 0⟩ ∧
    analyze_parameter_mismatches [] = [] ∧
    analyze_idle_connected_mode_failures [] = ⟨0, 0⟩ :=
  ⟨rfl, rfl, rfl, rfl, rfl, rfl, rfl, rfl, rfl, rfl⟩

/-- C9: the coverage analysis leaves the Sample Table unchanged at each of
its three call sites (RF tab `src/app.py:377`, summary tab `src/app.py:519`,
database save `src/app.py:615`), and the three sequential invocations on
the table return equal results. -/
theorem coverage_analysis_read_only (df : List Sample) (rsrpT rsrqT : ℚ) :
    (rf_tab_coverage_run df rsrpT rsrqT).2 = df ∧
    (summary_coverage_run df rsrpT rsrqT).2 = df ∧
    (dbsave_coverage_run df rsrpT rsrqT).2 = df ∧
    (rf_tab_coverage_run df rsrpT rsrqT).1 = (summary_coverage_run df rsrpT rsrqT).1 ∧
    (summary_coverage_run df rsrpT rsrqT).1 = (dbsave_coverage_run df rsrpT rsrqT).1 :=
  ⟨rfl, rfl, rfl, rfl, rfl⟩

end DriveTest
